import Mathlib

/-!
Shallow embedding of `src/server.py`, the FastAPI + WebSocket chat relay:
the SQLite-backed history store (`init_db`, `load_history`, the SQL executed
inside `websocket_endpoint`), the `ConnectionManager` registry, token
verification (`verify_token`), the websocket connect prelude and the per-frame
dispatch loop of `websocket_endpoint`, and the `/history` REST endpoint.

Machine-level conventions of the embedding:
- JSON values (`json.loads` results / `json.dumps` inputs) are `JVal`;
  `JVal.null` doubles as Python `None` and SQL `NULL` (Python `None` is bound
  to SQLite as `NULL` and serialized to JSON as `null`).
- A websocket is identified by a natural number; `ConnectionManager.active`
  is an insertion-ordered association list from websocket to user id, exactly
  like the Python dict.
- A `send_text` to a websocket in the `dead` set raises; to any other
  websocket it succeeds.  Performed sends are collected as `OutEvent`s.
- The per-connection receive loop body is the function `handleFrame`; an
  exception escaping the dispatch is the `FrameOutcome.crashed` branch, which
  applies the `except` clause of `websocket_endpoint` (`manager.disconnect`)
  and ends the loop.
-/

namespace LineWeb

/-- JSON values as produced by `json.loads` and consumed by `json.dumps`.
Numeric values are modelled as integers (all numbers the server itself puts
into frames are integers; client-sent numbers reach the model through `pyInt`
or are stored opaquely).  `null` also stands for Python `None`. -/
inductive JVal where
  | null
  | bool (b : Bool)
  | num (n : Int)
  | str (s : String)
  | arr (elems : List JVal)
  | obj (fields : List (String × JVal))

/-- Python `data.get(key)` on a parsed JSON object (`dict`): `none` models the
Python `None` returned for an absent key.  `json.loads` produces dicts with
unique keys, so first-match lookup is the dict lookup. -/
def jget (fields : List (String × JVal)) (key : String) : Option JVal :=
  match fields.find? (fun kv => kv.1 == key) with
  | some kv => some kv.2
  | none => none

/-- Python truthiness `bool(x)` of a value read from a parsed JSON object,
with `none` standing for Python `None`. -/
def pyTruthy : Option JVal → Bool
  | none => false
  | some .null => false
  | some (.bool b) => b
  | some (.num n) => n != 0
  | some (.str s) => s != ""
  | some (.arr l) => !l.isEmpty
  | some (.obj l) => !l.isEmpty

/-- Whitespace stripped by Python `int()` around a numeric literal. -/
def isSpaceChar (c : Char) : Bool :=
  c == ' ' || c == '\t' || c == '\n' || c == '\r'

/-- Decimal digit test. -/
def isDigitChar (c : Char) : Bool := '0' ≤ c && c ≤ '9'

/-- Value of a nonempty all-digit character run, `none` otherwise. -/
def digitsVal : List Char → Nat → Option Nat
  | [], acc => some acc
  | c :: cs, acc =>
    if isDigitChar c then digitsVal cs (acc * 10 + (c.toNat - '0'.toNat))
    else none

/-- Python `int(s)` on a string: surrounding whitespace is stripped, an
optional sign precedes a nonempty digit run; anything else raises
`ValueError` (`none`). -/
def pyIntOfString (s : String) : Option Int :=
  let cs := ((s.toList.dropWhile isSpaceChar).reverse.dropWhile
    isSpaceChar).reverse
  match cs with
  | [] => none
  | '-' :: rest =>
    if rest.isEmpty then none
    else (digitsVal rest 0).map (fun n => -(n : Int))
  | '+' :: rest =>
    if rest.isEmpty then none
    else (digitsVal rest 0).map (fun n => (n : Int))
  | rest => (digitsVal rest 0).map (fun n => (n : Int))

/-- Python `int(x)` applied to a value read from a parsed JSON object:
`none` means the call raises (`TypeError` on `None`, lists and dicts,
`ValueError` on a non-numeric string).  Integers pass through, booleans
coerce to 0/1, and integer strings parse. -/
def pyInt : Option JVal → Option Int
  | some (.num n) => some n
  | some (.bool b) => some (if b then 1 else 0)
  | some (.str s) => pyIntOfString s
  | _ => none

/-- Python `v == "s"` where `v` came from `data.get(...)` (so `v` may be the
Python `None`). -/
def optValEqStr (v : Option JVal) (s : String) : Bool :=
  match v with
  | some (.str t) => t == s
  | _ => false

/-- Python `None` (an absent JSON field) as a first-class value: stored in
SQLite as `NULL` and serialized by `json.dumps` as `null`, both `JVal.null`. -/
def pyToStored : Option JVal → JVal
  | none => .null
  | some v => v

/-- One row of the `users` table (`init_db`); `icon_path` is `null` until an
icon upload sets it. -/
structure UserRow where
  id : Int
  username : String
  icon_path : JVal

/-- One row of the `messages` table (`init_db`); `text`, `image_path` and
`edit_time` may be SQL `NULL` (`JVal.null`). -/
structure MessageRow where
  id : Int
  user_id : Int
  text : JVal
  image_path : JVal
  time : String
  edit_time : JVal

/-- One row of the `read_states` table; its primary key is
`(message_id, user_id)`. -/
structure ReadStateRow where
  message_id : Int
  user_id : Int
  read_time : String

/-- The SQLite database as the realtime engine sees it: the three touched
tables plus the `AUTOINCREMENT` counter that assigns `messages.id`. -/
structure DB where
  users : List UserRow
  messages : List MessageRow
  next_message_id : Int
  read_states : List ReadStateRow

/-- INSERT OR REPLACE INTO read_states (lines 337-338): SQLite deletes any
row carrying the same primary key `(message_id, user_id)` and inserts the new
row. -/
def recordRead (rows : List ReadStateRow) (mid uid : Int) (t : String) :
    List ReadStateRow :=
  rows.filter (fun r => !(r.message_id == mid && r.user_id == uid)) ++
    [⟨mid, uid, t⟩]

/-- get_username (lines 358-364): the author's username, `"unknown"` when the
user row is missing. -/
def get_username (db : DB) (user_id : Int) : String :=
  match db.users.find? (fun u => u.id == user_id) with
  | some u => u.username
  | none => "unknown"

/-- get_user_icon (lines 366-372): the author's icon path, Python `None` when
the user row is missing. -/
def get_user_icon (db : DB) (user_id : Int) : JVal :=
  match db.users.find? (fun u => u.id == user_id) with
  | some u => u.icon_path
  | none => .null

/-- Comparison used by `ORDER BY messages.id ASC` in `load_history`. -/
def msgLe (a b : MessageRow) : Prop := a.id ≤ b.id

instance : DecidableRel msgLe :=
  fun a b => inferInstanceAs (Decidable (a.id ≤ b.id))

instance : IsTotal MessageRow msgLe := ⟨fun a b => Int.le_total a.id b.id⟩

instance : IsTrans MessageRow msgLe := ⟨fun _ _ _ => Int.le_trans⟩

/-- One row of the `load_history` result set: `messages` LEFT JOIN `users`. -/
structure HistRow where
  id : Int
  user_id : Int
  username : JVal
  icon : JVal
  text : JVal
  image : JVal
  time : String
  edit_time : JVal

/-- The LEFT JOIN of one message row with its author's user row: `null`
username and icon when the author row is missing. -/
def histConv (db : DB) (m : MessageRow) : HistRow :=
  match db.users.find? (fun u => u.id == m.user_id) with
  | some u =>
      { id := m.id, user_id := m.user_id, username := .str u.username,
        icon := u.icon_path, text := m.text, image := m.image_path,
        time := m.time, edit_time := m.edit_time }
  | none =>
      { id := m.id, user_id := m.user_id, username := .null, icon := .null,
        text := m.text, image := m.image_path, time := m.time,
        edit_time := m.edit_time }

/-- load_history (lines 177-202): `ORDER BY messages.id ASC LIMIT ?`, the
LEFT JOIN contributing `null` username/icon when the author row is missing.
A negative SQLite `LIMIT` means no limit. -/
def load_history (db : DB) (limit : Int) : List HistRow :=
  let sorted := List.insertionSort msgLe db.messages
  let rows := if limit < 0 then sorted else sorted.take limit.toNat
  rows.map (histConv db)

/-- JSON encoding of one `load_history` row, as placed in the `history`
frame and the `/history` response. -/
def histRowToJson (r : HistRow) : JVal :=
  .obj [("id", .num r.id), ("user_id", .num r.user_id),
        ("username", r.username), ("icon", r.icon), ("text", r.text),
        ("image", r.image), ("time", .str r.time),
        ("edit_time", r.edit_time)]

/-- GET /history (lines 261-264): FastAPI binds `limit: int = 200`, so an
absent query parameter becomes 200 and any parsed integer — negative
included — is passed straight to `load_history`. -/
def history_endpoint (db : DB) (limit : Option Int) : List HistRow :=
  load_history db (limit.getD 200)

/-- One performed `send_text`: frame `frame` written to websocket `ws`. -/
structure OutEvent where
  ws : Nat
  frame : JVal

/-- Frames sent to one websocket, in send order. -/
def sentTo (outs : List OutEvent) (w : Nat) : List JVal :=
  (outs.filter (fun e => e.ws == w)).map (fun e => e.frame)

/-- Python `ws is exclude_ws` in the broadcast loop. -/
def excludedBy (w : Nat) (exclude : Option Nat) : Bool :=
  match exclude with
  | some e => w == e
  | none => false

/-- ConnectionManager.broadcast (lines 152-167): snapshot the member list
under the lock, iterate it sending to every member except `exclude`, collect
the members whose send raised (those in `dead`), then — only when that list
is nonempty — remove them from the registry.  Returns the performed sends and
the registry afterwards. -/
def broadcast (reg : List (Nat × Int)) (dead : List Nat) (payload : JVal)
    (exclude : Option Nat) : List OutEvent × List (Nat × Int) :=
  let websockets := reg.map Prod.fst
  let tried := websockets.filter (fun w => !excludedBy w exclude)
  let sends := (tried.filter (fun w => !dead.contains w)).map
    (fun w => OutEvent.mk w payload)
  let to_remove := tried.filter (fun w => dead.contains w)
  (sends,
    if to_remove.isEmpty then reg
    else reg.filter (fun p => !to_remove.contains p.1))

/-- ConnectionManager.disconnect (lines 147-150): drop the websocket's entry
from the registry if present. -/
def disconnect (reg : List (Nat × Int)) (ws : Nat) : List (Nat × Int) :=
  reg.filter (fun p => p.1 != ws)

/-- The process-wide state shared by the websocket handlers: the database,
the `manager.active` registry, and the set of websockets whose transport is
dead (a `send_text` to them raises). -/
structure ServerState where
  db : DB
  registry : List (Nat × Int)
  dead : List Nat

/-- The error frame `{"type": "error", "message": msg}`. -/
def errorFrame (msg : String) : JVal :=
  .obj [("type", .str "error"), ("message", .str msg)]

/-- Frame-kind test by the `type` tag. -/
def isTypeFrame (f : JVal) (t : String) : Bool :=
  match f with
  | .obj fields => optValEqStr (jget fields "type") t
  | _ => false

/-- Recognizer for error frames. -/
def isErrorFrame (f : JVal) : Bool := isTypeFrame f "error"

/-- The ack frame of the `message` branch (line 312). -/
def ackFrame (client_id : JVal) (server_id : Int) : JVal :=
  .obj [("type", .str "ack"), ("client_id", client_id),
        ("server_id", .num server_id)]

/-- The `entry` dict of the `message` branch (lines 302-310). -/
def messageEntry (db : DB) (server_id user_id : Int) (text image : JVal)
    (time : String) : JVal :=
  .obj [("id", .num server_id), ("user_id", .num user_id),
        ("username", .str (get_username db user_id)),
        ("icon", get_user_icon db user_id), ("text", text),
        ("image", image), ("time", .str time)]

/-- The broadcast payload of the `message` branch (line 311). -/
def messageFrame (entry : JVal) : JVal :=
  .obj [("type", .str "message"), ("message", entry)]

/-- The broadcast payload of the `edit` branch (line 329). -/
def editPayload (message_id : Int) (new_text : JVal) (edit_time : String) :
    JVal :=
  .obj [("type", .str "edit"), ("message_id", .num message_id),
        ("new_text", new_text), ("edit_time", .str edit_time)]

/-- The broadcast payload of the `read` branch (line 341). -/
def readPayload (message_id user_id : Int) (read_time : String) : JVal :=
  .obj [("type", .str "read"), ("message_id", .num message_id),
        ("user_id", .num user_id), ("read_time", .str read_time)]

/-- The broadcast payload of the `typing` branch (line 346). -/
def typingPayload (user_id : Int) (state : Bool) : JVal :=
  .obj [("type", .str "typing"), ("user_id", .num user_id),
        ("state", .bool state)]

/-- Outcome of one iteration of the receive loop in `websocket_endpoint`:
`next` means the loop continues (the connection stays Active); `crashed`
means an exception escaped the dispatch, so the surrounding `except` clause
ran `manager.disconnect` and the handler returned — the connection is over
and no further frames are processed.  Both carry the state afterwards and the
sends performed during the iteration. -/
inductive FrameOutcome where
  | next (st : ServerState) (outs : List OutEvent)
  | crashed (st : ServerState) (outs : List OutEvent)

/-- Whether the connection is still processing frames after the outcome. -/
def staysActive : FrameOutcome → Bool
  | .next _ _ => true
  | .crashed _ _ => false

/-- The sends performed during the iteration. -/
def framesOut : FrameOutcome → List OutEvent
  | .next _ outs => outs
  | .crashed _ outs => outs

/-- The server state after the iteration. -/
def stateAfter : FrameOutcome → ServerState
  | .next st _ => st
  | .crashed st _ => st

/-- One iteration of the receive loop of `websocket_endpoint`
(lines 282-355).  `parsed` is `some v` when `json.loads(data_txt)` returned
`v` and `none` when it raised; `now` is `datetime.utcnow().isoformat() + "Z"`
for this iteration; `user_id` is the identity bound at connect time.
Mirrors the dispatch on `data.get("type")`; a non-dict JSON value makes
`data.get` raise `AttributeError`, and an absent or non-numeric `message_id`
makes `int(...)` raise, both escaping to the `except` clause
(`manager.disconnect`). -/
def handleFrame (st : ServerState) (ws : Nat) (user_id : Int) (now : String)
    (parsed : Option JVal) : FrameOutcome :=
  match parsed with
  | none => .next st [⟨ws, errorFrame "invalid_json"⟩]
  | some (.obj fields) =>
    let typ := jget fields "type"
    if optValEqStr typ "message" then
      let client_id := jget fields "id"
      let text := pyToStored (jget fields "text")
      let image := pyToStored (jget fields "image")
      let server_id := st.db.next_message_id
      let db' : DB :=
        { st.db with
          messages := st.db.messages ++
            [⟨server_id, user_id, text, image, now, .null⟩],
          next_message_id := server_id + 1 }
      let bres := broadcast st.registry st.dead
        (messageFrame (messageEntry db' server_id user_id text image now))
        (some ws)
      .next { st with db := db', registry := bres.2 }
        (bres.1 ++ [⟨ws, ackFrame (pyToStored client_id) server_id⟩])
    else if optValEqStr typ "edit" then
      match pyInt (jget fields "message_id") with
      | none => .crashed { st with registry := disconnect st.registry ws } []
      | some message_id =>
        let new_text := pyToStored (jget fields "new_text")
        match st.db.messages.find? (fun m => m.id == message_id) with
        | none => .next st [⟨ws, errorFrame "not_allowed"⟩]
        | some r =>
          if r.user_id != user_id then
            .next st [⟨ws, errorFrame "not_allowed"⟩]
          else
            let db' : DB :=
              { st.db with
                messages := st.db.messages.map (fun m =>
                  if m.id == message_id then
                    { m with text := new_text, edit_time := .str now }
                  else m) }
            let bres := broadcast st.registry st.dead
              (editPayload message_id new_text now) none
            .next { st with db := db', registry := bres.2 } bres.1
    else if optValEqStr typ "read" then
      match pyInt (jget fields "message_id") with
      | none => .crashed { st with registry := disconnect st.registry ws } []
      | some message_id =>
        let db' : DB :=
          { st.db with
            read_states := recordRead st.db.read_states message_id user_id now }
        let bres := broadcast st.registry st.dead
          (readPayload message_id user_id now) none
        .next { st with db := db', registry := bres.2 } bres.1
    else if optValEqStr typ "typing" then
      let state := pyTruthy (some ((jget fields "state").getD (.bool false)))
      let bres := broadcast st.registry st.dead
        (typingPayload user_id state) (some ws)
      .next { st with registry := bres.2 } bres.1
    else
      .next st [⟨ws, errorFrame "unknown_type"⟩]
  | some _ => .crashed { st with registry := disconnect st.registry ws } []

/-- Result of `jwt.decode(token, SECRET_KEY, algorithms=[JWT_ALGO])` on a
given token string: the payload dict on success, or the exception raised.
The JWT library is an external collaborator, so it enters the model as an
oracle parameter. -/
inductive JwtDecode where
  | payload (fields : List (String × JVal))
  | expiredSignature
  | invalidToken
  | otherError

/-- verify_token (lines 115-132): every failure path of the outer
`try/except` returns `None`, and the inner `try` around `int(sub)` also
returns `None` when the conversion raises — no exception ever escapes to the
caller. -/
def verify_token (decode : String → JwtDecode) (token : String) : Option Int :=
  match decode token with
  | .payload fields => pyInt (jget fields "sub")
  | .expiredSignature => none
  | .invalidToken => none
  | .otherError => none

/-- Outcome of the websocket connect prelude. -/
inductive ConnectOutcome where
  | rejected (closeCode : Nat)
  | accepted (user_id : Int)

/-- The history snapshot frame pushed on line 280:
`{"type": "history", "messages": load_history(200)}`. -/
def historyFrame (db : DB) : JVal :=
  .obj [("type", .str "history"),
        ("messages", .arr ((load_history db 200).map histRowToJson))]

/-- websocket_endpoint prelude (lines 270-280): read the `token` query
parameter (`none` when absent), close with code 1008 when it is missing or
empty (`if not token`) or when verification fails (`if not user_id` — Python
falsiness also rejects a verified subject of 0); otherwise `manager.connect`
appends the session to the registry and the history snapshot frame is sent
to the new websocket. -/
def wsConnect (decode : String → JwtDecode) (tokenParam : Option String)
    (st : ServerState) (ws : Nat) :
    ConnectOutcome × ServerState × List OutEvent :=
  match tokenParam with
  | none => (.rejected 1008, st, [])
  | some token =>
    if token == "" then (.rejected 1008, st, [])
    else
      match verify_token decode token with
      | none => (.rejected 1008, st, [])
      | some user_id =>
        if user_id == 0 then (.rejected 1008, st, [])
        else
          (.accepted user_id,
            { st with registry := st.registry ++ [(ws, user_id)] },
            [⟨ws, historyFrame st.db⟩])

/-- Recognizer for the history snapshot frame. -/
def isHistoryFrame : JVal → Bool
  | .obj fields => optValEqStr (jget fields "type") "history"
  | _ => false

/-- State of the connect-race model: the registry plus the ordered log of
frames the server has written, each tagged with its destination websocket. -/
structure SimState where
  registry : List (Nat × Int)
  delivered : List (Nat × JVal)

/-- Atomic steps of the concurrent handlers around lines 279-280 of
`websocket_endpoint`: `connectAdd` is `manager.connect` (the registry
insertion under the manager lock), `sendHistory` is the history snapshot
`send_text` of line 280, and `bcast` is a `manager.broadcast` issued by some
other connection's handler, delivering to every current registry member
except the excluded sender (all transports alive).  Each `await` between
these operations is a scheduling point of the event loop, so steps of
different handlers may interleave freely. -/
inductive SimEv where
  | connectAdd (ws : Nat) (uid : Int)
  | sendHistory (ws : Nat) (frame : JVal)
  | bcast (payload : JVal) (exclude : Option Nat)

/-- Effect of one atomic step on the shared state. -/
def simStep (s : SimState) : SimEv → SimState
  | .connectAdd ws uid => { s with registry := s.registry ++ [(ws, uid)] }
  | .sendHistory ws frame => { s with delivered := s.delivered ++ [(ws, frame)] }
  | .bcast payload exclude =>
      { s with delivered := s.delivered ++
          ((s.registry.map Prod.fst).filter
            (fun w => !excludedBy w exclude)).map (fun w => (w, payload)) }

/-- Run a trace of atomic steps. -/
def simRun (s : SimState) (tr : List SimEv) : SimState := tr.foldl simStep s

/-- Step recognizers for the trace-order predicate. -/
def isConnectAddOf (ws : Nat) : SimEv → Bool
  | .connectAdd w _ => w == ws
  | _ => false

/-- Recognizer for the snapshot send of a given websocket. -/
def isSendHistoryOf (ws : Nat) : SimEv → Bool
  | .sendHistory w _ => w == ws
  | _ => false

/-- A trace respects the handler program order that lines 279-280 impose for
websocket `ws`: its `manager.connect` registry add occurs strictly before
its history snapshot send.  This is the only ordering the code enforces
between the two — there is no buffering of broadcasts. -/
def respectsConnectOrder (tr : List SimEv) (ws : Nat) : Bool :=
  (tr.takeWhile (fun e => !isSendHistoryOf ws e)).any (isConnectAddOf ws)

/-- Frames delivered to one websocket, in delivery order. -/
def framesTo (s : SimState) (w : Nat) : List JVal :=
  (s.delivered.filter (fun p => p.1 == w)).map (fun p => p.2)

/-- The delivery-order property the claim asserts for a newly connected
websocket: no frame reaches it before its history snapshot frame. -/
def snapshotFirst (s : SimState) (w : Nat) : Bool :=
  (framesTo s w).takeWhile (fun f => !isHistoryFrame f) |>.isEmpty

/-! Concrete fixtures for counterexamples and witnesses. -/

/-- Fresh database, as `init_db` leaves it (first `AUTOINCREMENT` id is 1). -/
def dbEmpty : DB := ⟨[], [], 1, []⟩

/-- Two live sessions on the fresh database: websocket 1 bound to user 10 and
websocket 2 bound to user 20. -/
def stTwo : ServerState := ⟨dbEmpty, [(1, 10), (2, 20)], []⟩

/-- Database with users alice (id 1) and bob (id 2) and one message, id 1,
authored by bob. -/
def dbOneMsg : DB :=
  ⟨[⟨1, "alice", .null⟩, ⟨2, "bob", .null⟩],
   [⟨1, 2, .str "hi", .null, "T0", .null⟩], 2, []⟩

/-- Three live sessions on `dbOneMsg`: websocket 1 as alice, websockets 2 and
3 as bob. -/
def stThree : ServerState := ⟨dbOneMsg, [(1, 1), (2, 2), (3, 2)], []⟩

/-- An admissible interleaving of two handlers: session B (websocket 2,
user 20) is already connected; session A (websocket 1, user 10)
authenticates and its `manager.connect` completes (line 279); B's handler
then broadcasts a typing frame; only then does A's history snapshot send
(line 280) complete. -/
def raceTrace : List SimEv :=
  [.connectAdd 1 10,
   .bcast (typingPayload 20 true) (some 2),
   .sendHistory 1 (historyFrame dbEmpty)]

/-! Helper lemmas. -/

lemma optValEqStr_eq {v : Option JVal} {s : String}
    (h : optValEqStr v s = true) : v = some (.str s) := by
  cases v with
  | none => simp [optValEqStr] at h
  | some jv =>
    cases jv <;> simp [optValEqStr] at h
    simp [h]

lemma optValEqStr_ne {v : Option JVal} {s t : String}
    (h : optValEqStr v s = true) (hne : s ≠ t) : optValEqStr v t = false := by
  rw [optValEqStr_eq h]
  simpa [optValEqStr] using hne

lemma sentTo_nil (w : Nat) : sentTo [] w = [] := rfl

lemma sentTo_cons (e : OutEvent) (rest : List OutEvent) (w : Nat) :
    sentTo (e :: rest) w =
      (if e.ws = w then [e.frame] else []) ++ sentTo rest w := by
  simp only [sentTo, List.filter_cons]
  split
  · next h => rw [if_pos (by simpa using h)]; simp
  · next h => rw [if_neg (by simpa using h)]; simp

lemma sentTo_append (a b : List OutEvent) (w : Nat) :
    sentTo (a ++ b) w = sentTo a w ++ sentTo b w := by
  simp [sentTo]

lemma sentTo_map_not_mem (l : List Nat) (p : JVal) {w : Nat} (h : w ∉ l) :
    sentTo (l.map (fun x => OutEvent.mk x p)) w = [] := by
  induction l with
  | nil => rfl
  | cons a t ih =>
    simp only [List.mem_cons, not_or] at h
    rw [List.map_cons, sentTo_cons, ih h.2]
    have hne : a ≠ w := fun e => h.1 e.symm
    simp [hne]

lemma sentTo_map_mem (l : List Nat) (p : JVal) {w : Nat} (hn : l.Nodup)
    (hw : w ∈ l) : sentTo (l.map (fun x => OutEvent.mk x p)) w = [p] := by
  induction l with
  | nil => cases hw
  | cons a t ih =>
    rcases List.nodup_cons.mp hn with ⟨ha, ht⟩
    rw [List.map_cons, sentTo_cons]
    rcases List.mem_cons.mp hw with h | h
    · subst h
      rw [sentTo_map_not_mem _ _ ha]
      simp
    · have hne : a ≠ w := fun e => ha (e ▸ h)
      rw [ih ht h]
      simp [hne]

lemma broadcast_fst (reg : List (Nat × Int)) (dead : List Nat) (payload : JVal)
    (exclude : Option Nat) :
    (broadcast reg dead payload exclude).1 =
      ((reg.map Prod.fst).filter
        (fun w => !dead.contains w && !excludedBy w exclude)).map
        (fun w => OutEvent.mk w payload) := by
  simp [broadcast, List.filter_filter]

lemma broadcast_snd_dead_nil (reg : List (Nat × Int)) (payload : JVal)
    (exclude : Option Nat) : (broadcast reg [] payload exclude).2 = reg := by
  simp [broadcast]

lemma broadcast_snd_none (reg : List (Nat × Int)) (dead : List Nat)
    (payload : JVal) :
    (broadcast reg dead payload none).2 =
      reg.filter (fun q => !dead.contains q.1) := by
  show (if _ then _ else _) = _
  split
  · next h =>
    rw [eq_comm, List.filter_eq_self]
    intro q hq
    have h0 := List.filter_eq_nil_iff.mp (List.isEmpty_iff.mp h) q.1
      (by simp [excludedBy, List.mem_map_of_mem Prod.fst hq])
    simpa using h0
  · apply List.filter_congr
    intro q hq
    have hmem : q.1 ∈ reg.map Prod.fst := List.mem_map_of_mem Prod.fst hq
    simp [List.contains, List.elem_eq_mem, List.mem_filter, excludedBy, hmem]

lemma handleFrame_message_eq (st : ServerState) (ws : Nat) (uid : Int)
    (now : String) (fields : List (String × JVal))
    (hty : optValEqStr (jget fields "type") "message" = true) :
    handleFrame st ws uid now (some (.obj fields)) =
      (let text := pyToStored (jget fields "text")
       let image := pyToStored (jget fields "image")
       let sid := st.db.next_message_id
       let db' : DB :=
         { st.db with
           messages := st.db.messages ++ [⟨sid, uid, text, image, now, .null⟩],
           next_message_id := sid + 1 }
       let bres := broadcast st.registry st.dead
         (messageFrame (messageEntry db' sid uid text image now)) (some ws)
       .next { st with db := db', registry := bres.2 }
         (bres.1 ++ [⟨ws, ackFrame (pyToStored (jget fields "id")) sid⟩])) := by
  simp [handleFrame, hty]

lemma handleFrame_edit_crash (st : ServerState) (ws : Nat) (uid : Int)
    (now : String) (fields : List (String × JVal))
    (hty : optValEqStr (jget fields "type") "edit" = true)
    (hm : pyInt (jget fields "message_id") = none) :
    handleFrame st ws uid now (some (.obj fields)) =
      .crashed { st with registry := disconnect st.registry ws } [] := by
  have h1 := optValEqStr_ne hty (show "edit" ≠ "message" by decide)
  simp [handleFrame, h1, hty, hm]

lemma handleFrame_edit_denied (st : ServerState) (ws : Nat) (uid : Int)
    (now : String) (fields : List (String × JVal)) (mid : Int)
    (hty : optValEqStr (jget fields "type") "edit" = true)
    (hm : pyInt (jget fields "message_id") = some mid)
    (hauth : ∀ m ∈ st.db.messages, m.id = mid → m.user_id ≠ uid) :
    handleFrame st ws uid now (some (.obj fields)) =
      .next st [⟨ws, errorFrame "not_allowed"⟩] := by
  have h1 := optValEqStr_ne hty (show "edit" ≠ "message" by decide)
  cases hfind : st.db.messages.find? (fun m => m.id == mid) with
  | none => simp [handleFrame, h1, hty, hm, hfind]
  | some r =>
    have hr : r.user_id ≠ uid :=
      hauth r (List.mem_of_find?_eq_some hfind)
        (by simpa using List.find?_some hfind)
    simp [handleFrame, h1, hty, hm, hfind, hr]

lemma handleFrame_edit_ok (st : ServerState) (ws : Nat) (uid : Int)
    (now : String) (fields : List (String × JVal)) (mid : Int)
    (r : MessageRow)
    (hty : optValEqStr (jget fields "type") "edit" = true)
    (hm : pyInt (jget fields "message_id") = some mid)
    (hfind : st.db.messages.find? (fun m => m.id == mid) = some r)
    (hr : r.user_id = uid) :
    handleFrame st ws uid now (some (.obj fields)) =
      (let new_text := pyToStored (jget fields "new_text")
       let db' : DB :=
         { st.db with
           messages := st.db.messages.map (fun m =>
             if m.id == mid then
               { m with text := new_text, edit_time := .str now }
             else m) }
       let bres := broadcast st.registry st.dead
         (editPayload mid new_text now) none
       .next { st with db := db', registry := bres.2 } bres.1) := by
  have h1 := optValEqStr_ne hty (show "edit" ≠ "message" by decide)
  simp [handleFrame, h1, hty, hm, hfind, hr]

lemma handleFrame_read_eq (st : ServerState) (ws : Nat) (uid : Int)
    (now : String) (fields : List (String × JVal)) (mid : Int)
    (hty : optValEqStr (jget fields "type") "read" = true)
    (hm : pyInt (jget fields "message_id") = some mid) :
    handleFrame st ws uid now (some (.obj fields)) =
      (let bres := broadcast st.registry st.dead (readPayload mid uid now) none
       .next { st with
           db := { st.db with
             read_states := recordRead st.db.read_states mid uid now },
           registry := bres.2 } bres.1) := by
  have h1 := optValEqStr_ne hty (show "read" ≠ "message" by decide)
  have h2 := optValEqStr_ne hty (show "read" ≠ "edit" by decide)
  simp [handleFrame, h1, h2, hty, hm]

lemma handleFrame_read_crash (st : ServerState) (ws : Nat) (uid : Int)
    (now : String) (fields : List (String × JVal))
    (hty : optValEqStr (jget fields "type") "read" = true)
    (hm : pyInt (jget fields "message_id") = none) :
    handleFrame st ws uid now (some (.obj fields)) =
      .crashed { st with registry := disconnect st.registry ws } [] := by
  have h1 := optValEqStr_ne hty (show "read" ≠ "message" by decide)
  have h2 := optValEqStr_ne hty (show "read" ≠ "edit" by decide)
  simp [handleFrame, h1, h2, hty, hm]

lemma handleFrame_typing_eq (st : ServerState) (ws : Nat) (uid : Int)
    (now : String) (fields : List (String × JVal))
    (hty : optValEqStr (jget fields "type") "typing" = true) :
    handleFrame st ws uid now (some (.obj fields)) =
      (let state := pyTruthy (some ((jget fields "state").getD (.bool false)))
       let bres := broadcast st.registry st.dead (typingPayload uid state)
         (some ws)
       .next { st with registry := bres.2 } bres.1) := by
  have h1 := optValEqStr_ne hty (show "typing" ≠ "message" by decide)
  have h2 := optValEqStr_ne hty (show "typing" ≠ "edit" by decide)
  have h3 := optValEqStr_ne hty (show "typing" ≠ "read" by decide)
  simp [handleFrame, h1, h2, h3, hty]

lemma handleFrame_unknown_eq (st : ServerState) (ws : Nat) (uid : Int)
    (now : String) (fields : List (String × JVal))
    (h1 : optValEqStr (jget fields "type") "message" = false)
    (h2 : optValEqStr (jget fields "type") "edit" = false)
    (h3 : optValEqStr (jget fields "type") "read" = false)
    (h4 : optValEqStr (jget fields "type") "typing" = false) :
    handleFrame st ws uid now (some (.obj fields)) =
      .next st [⟨ws, errorFrame "unknown_type"⟩] := by
  simp [handleFrame, h1, h2, h3, h4]

lemma recordRead_filter_key (rows : List ReadStateRow) (mid uid : Int)
    (t : String) :
    (recordRead rows mid uid t).filter
      (fun r => r.message_id == mid && r.user_id == uid) =
      [⟨mid, uid, t⟩] := by
  simp [recordRead, List.filter_append, List.filter_filter]

lemma histConv_id (db : DB) (m : MessageRow) : (histConv db m).id = m.id := by
  unfold histConv
  cases db.users.find? (fun u => u.id == m.user_id) <;> rfl

lemma load_history_sorted (db : DB) (limit : Int) :
    List.Sorted (· ≤ ·) ((load_history db limit).map HistRow.id) := by
  have hs : List.Sorted msgLe (List.insertionSort msgLe db.messages) :=
    List.sorted_insertionSort msgLe db.messages
  have hrows : List.Pairwise msgLe
      (if limit < 0 then List.insertionSort msgLe db.messages
       else (List.insertionSort msgLe db.messages).take limit.toNat) := by
    split
    · exact hs
    · exact List.Pairwise.take hs
  unfold load_history
  simp only [List.map_map]
  rw [List.Sorted, List.pairwise_map]
  refine hrows.imp ?_
  intro a b hab
  simpa [Function.comp, histConv_id] using hab

lemma load_history_length (db : DB) (limit : Int) :
    (load_history db limit).length =
      if limit < 0 then db.messages.length
      else min limit.toNat db.messages.length := by
  unfold load_history
  split <;>
    simp [List.length_map, List.length_take, List.length_insertionSort]

lemma broadcast_sentTo_self (reg : List (Nat × Int)) (payload : JVal)
    (ws : Nat) : sentTo (broadcast reg [] payload (some ws)).1 ws = [] := by
  rw [broadcast_fst]
  apply sentTo_map_not_mem
  intro hmem
  rw [List.mem_filter] at hmem
  simp [excludedBy] at hmem

lemma broadcast_sentTo_other (reg : List (Nat × Int)) (payload : JVal)
    (ws w : Nat) (hn : (reg.map Prod.fst).Nodup) (hw : w ∈ reg.map Prod.fst)
    (hne : w ≠ ws) :
    sentTo (broadcast reg [] payload (some ws)).1 w = [payload] := by
  rw [broadcast_fst]
  apply sentTo_map_mem _ _ (hn.filter _)
  rw [List.mem_filter]
  exact ⟨hw, by simp [excludedBy, hne]⟩

lemma broadcast_sentTo_all (reg : List (Nat × Int)) (payload : JVal)
    (w : Nat) (hn : (reg.map Prod.fst).Nodup) (hw : w ∈ reg.map Prod.fst) :
    sentTo (broadcast reg [] payload none).1 w = [payload] := by
  rw [broadcast_fst]
  apply sentTo_map_mem _ _ (hn.filter _)
  rw [List.mem_filter]
  exact ⟨hw, by simp [excludedBy]⟩

lemma length_filter_ne_of_nodup (l : List Nat) (d : Nat) (hn : l.Nodup)
    (hd : d ∈ l) : (l.filter (fun w => w ≠ d)).length = l.length - 1 := by
  induction l with
  | nil => cases hd
  | cons a t ih =>
    rcases List.nodup_cons.mp hn with ⟨ha, ht⟩
    rcases List.mem_cons.mp hd with h | h
    · subst h
      rw [List.filter_cons_of_neg (by simp),
        List.filter_eq_self.mpr (fun b hb => by
          simp only [decide_eq_true_eq]
          exact fun e => ha (e ▸ hb))]
      simp
    · have had : a ≠ d := fun e => ha (e ▸ h)
      have hpos : 0 < t.length := List.length_pos.mpr (List.ne_nil_of_mem h)
      rw [List.filter_cons_of_pos (by simp [had]), List.length_cons, ih ht h,
        List.length_cons]
      omega

/-! Claim theorems. -/

/-- C1: the claim requires the history snapshot frame to reach a newly
authenticated session before any live broadcast frame, via snapshot-before-
registry-add or buffering.  The code does neither: `manager.connect`
(line 279) makes the session visible to broadcasts strictly before the
snapshot send (line 280), and nothing buffers.  `raceTrace` respects the
one ordering the code enforces for the connecting websocket
(`respectsConnectOrder`), yet the first frame delivered to the new session
is a live typing broadcast, not the snapshot (`snapshotFirst` fails). -/
theorem C1_snapshot_race :
    respectsConnectOrder raceTrace 1 = true ∧
    snapshotFirst (simRun ⟨[(2, 20)], []⟩ raceTrace) 1 = false :=
  ⟨rfl, rfl⟩

/-- C2 counterexample: an edit frame with an absent `message_id` — a
malformed body in the claim's sense — does not leave the connection Active
with an error frame: `int(None)` raises, no frame is sent, and the session
is dropped from the registry by the `except` clause (websocket 1 is gone
from the registry afterwards). -/
theorem C2_counterexample :
    staysActive (handleFrame stTwo 1 10 "T1"
      (some (.obj [("type", .str "edit")]))) = false ∧
    framesOut (handleFrame stTwo 1 10 "T1"
      (some (.obj [("type", .str "edit")]))) = [] ∧
    (stateAfter (handleFrame stTwo 1 10 "T1"
      (some (.obj [("type", .str "edit")])))).registry = [(2, 20)] :=
  ⟨rfl, rfl, rfl⟩

/-- C2 (amended): a frame that is not valid JSON, and an object frame whose
type tag is unrecognized, never close the connection — the sender receives
an error frame (`invalid_json` / `unknown_type`) and the state is unchanged.
But an edit or read frame whose `message_id` field is absent or not numeric
(`pyInt` raises) terminates frame processing with no error frame and removes
the session from the registry. -/
theorem C2_malformed_frames (st : ServerState) (ws : Nat) (uid : Int)
    (now : String) (fields : List (String × JVal))
    (hm : pyInt (jget fields "message_id") = none) :
    (handleFrame st ws uid now none =
      .next st [⟨ws, errorFrame "invalid_json"⟩]) ∧
    (optValEqStr (jget fields "type") "message" = false →
     optValEqStr (jget fields "type") "edit" = false →
     optValEqStr (jget fields "type") "read" = false →
     optValEqStr (jget fields "type") "typing" = false →
     handleFrame st ws uid now (some (.obj fields)) =
       .next st [⟨ws, errorFrame "unknown_type"⟩]) ∧
    (optValEqStr (jget fields "type") "edit" = true →
     handleFrame st ws uid now (some (.obj fields)) =
       .crashed { st with registry := disconnect st.registry ws } []) ∧
    (optValEqStr (jget fields "type") "read" = true →
     handleFrame st ws uid now (some (.obj fields)) =
       .crashed { st with registry := disconnect st.registry ws } []) :=
  ⟨rfl,
   fun h1 h2 h3 h4 => handleFrame_unknown_eq st ws uid now fields h1 h2 h3 h4,
   fun hty => handleFrame_edit_crash st ws uid now fields hty hm,
   fun hty => handleFrame_read_crash st ws uid now fields hty hm⟩

/-- C2 witness: concrete instances of the amended claim — an invalid-JSON
frame and an unknown-type frame leave the two-session state untouched with
an error frame to the sender, while an edit frame lacking `message_id`
crashes the handler and drops the session. -/
theorem C2_malformed_frames_witness :
    (handleFrame stTwo 1 10 "T1" none =
      .next stTwo [⟨1, errorFrame "invalid_json"⟩]) ∧
    (handleFrame stTwo 1 10 "T1" (some (.obj [("type", .str "zz")])) =
      .next stTwo [⟨1, errorFrame "unknown_type"⟩]) ∧
    (handleFrame stTwo 1 10 "T1" (some (.obj [("type", .str "edit")])) =
      .crashed { stTwo with registry := disconnect stTwo.registry 1 } []) :=
  ⟨(C2_malformed_frames stTwo 1 10 "T1" [("type", .str "zz")] rfl).1,
   (C2_malformed_frames stTwo 1 10 "T1" [("type", .str "zz")] rfl).2.1
     rfl rfl rfl rfl,
   (C2_malformed_frames stTwo 1 10 "T1" [("type", .str "edit")] rfl).2.2.1
     rfl⟩

/-- C3: an edit frame whose referenced message does not exist, or whose
referenced message was not authored by the sender's identity, leaves the
database untouched (no mutation happens at all, so in particular none before
the author check concludes), sends exactly one `not_allowed` error frame to
the sender, and broadcasts nothing. -/
theorem C3_edit_forbidden (st : ServerState) (ws : Nat) (uid : Int)
    (now : String) (fields : List (String × JVal)) (mid : Int)
    (hty : optValEqStr (jget fields "type") "edit" = true)
    (hm : pyInt (jget fields "message_id") = some mid)
    (hauth : ∀ m ∈ st.db.messages, m.id = mid → m.user_id ≠ uid) :
    handleFrame st ws uid now (some (.obj fields)) =
      .next st [⟨ws, errorFrame "not_allowed"⟩] :=
  handleFrame_edit_denied st ws uid now fields mid hty hm hauth

/-- C3 witness: alice (user 1, websocket 1) tries to edit bob's message 1,
and separately the nonexistent message 7; both leave the state unchanged and
yield only the error frame. -/
theorem C3_edit_forbidden_witness :
    (handleFrame stThree 1 1 "T1"
      (some (.obj [("type", .str "edit"), ("message_id", .num 1),
        ("new_text", .str "haha")])) =
      .next stThree [⟨1, errorFrame "not_allowed"⟩]) ∧
    (handleFrame stThree 1 1 "T1"
      (some (.obj [("type", .str "edit"), ("message_id", .num 7),
        ("new_text", .str "haha")])) =
      .next stThree [⟨1, errorFrame "not_allowed"⟩]) :=
  ⟨C3_edit_forbidden stThree 1 1 "T1" _ 1 rfl rfl (by decide),
   C3_edit_forbidden stThree 1 1 "T1" _ 7 rfl rfl (by decide)⟩

/-- C6: processing two read frames for the same message identifier from the
same reader identity (on any two websockets of that user, at times `t1` then
`t2`) leaves exactly one receipt row for the key `(mid, uid)`, and it carries
the timestamp of the later call — the `INSERT OR REPLACE` upsert never
creates a duplicate row. -/
theorem C6_read_idempotent (st : ServerState) (ws1 ws2 : Nat) (uid : Int)
    (t1 t2 : String) (f1 f2 : List (String × JVal)) (mid : Int)
    (hty1 : optValEqStr (jget f1 "type") "read" = true)
    (hm1 : pyInt (jget f1 "message_id") = some mid)
    (hty2 : optValEqStr (jget f2 "type") "read" = true)
    (hm2 : pyInt (jget f2 "message_id") = some mid) :
    ∃ st1 o1 st2 o2,
      handleFrame st ws1 uid t1 (some (.obj f1)) = .next st1 o1 ∧
      handleFrame st1 ws2 uid t2 (some (.obj f2)) = .next st2 o2 ∧
      st2.db.read_states.filter
        (fun r => r.message_id == mid && r.user_id == uid) =
        [⟨mid, uid, t2⟩] ∧
      st2.db.read_states.countP
        (fun r => r.message_id == mid && r.user_id == uid) = 1 := by
  rw [handleFrame_read_eq st ws1 uid t1 f1 mid hty1 hm1]
  refine ⟨_, _, _, _, rfl, handleFrame_read_eq _ ws2 uid t2 f2 mid hty2 hm2,
    recordRead_filter_key _ mid uid t2, ?_⟩
  rw [List.countP_eq_length_filter, recordRead_filter_key _ mid uid t2]
  rfl

/-- C6 witness: two concrete reads of message 1 by bob (user 2) from
websockets 2 and 3 leave exactly the receipt `(1, 2, "T9")`. -/
theorem C6_read_idempotent_witness :
    (stateAfter (handleFrame
        (stateAfter (handleFrame stThree 2 2 "T8"
          (some (.obj [("type", .str "read"), ("message_id", .num 1)]))))
        3 2 "T9"
        (some (.obj [("type", .str "read"),
          ("message_id", .num 1)])))).db.read_states.filter
      (fun r => r.message_id == 1 && r.user_id == 2) = [⟨1, 2, "T9"⟩] := by
  obtain ⟨st1, o1, st2, o2, h1, h2, hf, hc⟩ :=
    C6_read_idempotent stThree 2 3 2 "T8" "T9"
      [("type", JVal.str "read"), ("message_id", JVal.num 1)]
      [("type", JVal.str "read"), ("message_id", JVal.num 1)] 1
      rfl rfl rfl rfl
  rw [h1]
  simp only [stateAfter]
  rw [h2]
  simp only [stateAfter]
  exact hf

/-- C7 counterexample: a read frame for message 5 — which does not exist in
the fresh database — is not answered with a NotFound error: the receipt is
recorded anyway and the read broadcast goes out to every session, exactly as
on success.  There is no not-found path in the read branch. -/
theorem C7_counterexample :
    handleFrame stTwo 1 10 "T1"
      (some (.obj [("type", .str "read"), ("message_id", .num 5)])) =
      .next ⟨⟨[], [], 1, [⟨5, 10, "T1"⟩]⟩, [(1, 10), (2, 20)], []⟩
        [⟨1, readPayload 5 10 "T1"⟩, ⟨2, readPayload 5 10 "T1"⟩] := rfl

/-- C7 (amended): the read branch never checks message existence: for every
read frame, a receipt row is recorded for `(mid, uid)` and the read
broadcast is delivered to every live session — whether or not `mid` refers
to an existing message — and no error frame is sent. -/
theorem C7_read_no_notfound (st : ServerState) (ws : Nat) (uid : Int)
    (now : String) (fields : List (String × JVal)) (mid : Int)
    (hty : optValEqStr (jget fields "type") "read" = true)
    (hm : pyInt (jget fields "message_id") = some mid)
    (hdead : st.dead = []) (hn : (st.registry.map Prod.fst).Nodup) :
    ∃ st' outs,
      handleFrame st ws uid now (some (.obj fields)) = .next st' outs ∧
      st'.db.read_states.filter
        (fun r => r.message_id == mid && r.user_id == uid) =
        [⟨mid, uid, now⟩] ∧
      (∀ p ∈ st.registry, sentTo outs p.1 = [readPayload mid uid now]) ∧
      outs.all (fun e => !isErrorFrame e.frame) = true := by
  rw [handleFrame_read_eq st ws uid now fields mid hty hm, hdead]
  refine ⟨_, _, rfl, recordRead_filter_key _ mid uid now, ?_, ?_⟩
  · intro p hp
    exact broadcast_sentTo_all st.registry _ p.1 hn
      (List.mem_map_of_mem Prod.fst hp)
  · rw [List.all_eq_true]
    intro e he
    rw [broadcast_fst] at he
    rcases List.mem_map.mp he with ⟨w, _, rfl⟩
    rfl

/-- C7 witness: the concrete nonexistent-message read of the counterexample,
through the amended theorem: the receipt lands, both websockets get the read
broadcast, and no error frame goes out. -/
theorem C7_read_no_notfound_witness :
    (stateAfter (handleFrame stTwo 1 10 "T1"
        (some (.obj [("type", .str "read"),
          ("message_id", .num 5)])))).db.read_states.filter
      (fun r => r.message_id == 5 && r.user_id == 10) = [⟨5, 10, "T1"⟩] ∧
    sentTo (framesOut (handleFrame stTwo 1 10 "T1"
        (some (.obj [("type", .str "read"), ("message_id", .num 5)])))) 1 =
      [readPayload 5 10 "T1"] ∧
    sentTo (framesOut (handleFrame stTwo 1 10 "T1"
        (some (.obj [("type", .str "read"), ("message_id", .num 5)])))) 2 =
      [readPayload 5 10 "T1"] ∧
    (framesOut (handleFrame stTwo 1 10 "T1"
        (some (.obj [("type", .str "read"), ("message_id", .num 5)])))).all
      (fun e => !isErrorFrame e.frame) = true := by
  obtain ⟨st', outs, heq, hrec, hall, herr⟩ :=
    C7_read_no_notfound stTwo 1 10 "T1"
      [("type", JVal.str "read"), ("message_id", JVal.num 5)] 5
      rfl rfl rfl (by decide)
  rw [heq]
  simp only [stateAfter, framesOut]
  exact ⟨hrec, hall (1, 10) (by decide), hall (2, 20) (by decide), herr⟩

/-- C9: an upgrade request whose bearer token is absent, empty, or fails
verification (the JWT decode raises or the embedded subject is unusable) is
closed with the fixed policy-violation code 1008, the registry is untouched
— no Session is ever created — and the websocket receives no frames; and
`verify_token` itself signals every rejection as the value `none`, never by
an exception (each `except` arm of lines 115-132 is a `return None`). -/
theorem C9_auth_rejection (decode : String → JwtDecode)
    (tokenParam : Option String) (st : ServerState) (ws : Nat)
    (h : tokenParam = none ∨ tokenParam = some "" ∨
      ∃ t, tokenParam = some t ∧
        (verify_token decode t = none ∨ verify_token decode t = some 0)) :
    wsConnect decode tokenParam st ws = (.rejected 1008, st, []) := by
  rcases h with h | h | ⟨t, ht, hv⟩
  · subst h; rfl
  · subst h; rfl
  · subst ht
    by_cases he : t == ""
    · simp [wsConnect, he]
    · rcases hv with hv | hv <;> simp [wsConnect, he, hv]

/-- C9 witness: a missing token, an empty token, and a token whose decode
raises `InvalidTokenError` are all rejected with close code 1008 on the
two-session state, leaving it unchanged with no frames sent. -/
theorem C9_auth_rejection_witness :
    (wsConnect (fun _ => .invalidToken) none stTwo 7 =
      (.rejected 1008, stTwo, [])) ∧
    (wsConnect (fun _ => .invalidToken) (some "") stTwo 7 =
      (.rejected 1008, stTwo, [])) ∧
    (wsConnect (fun _ => .invalidToken) (some "tok") stTwo 7 =
      (.rejected 1008, stTwo, [])) :=
  ⟨C9_auth_rejection _ none stTwo 7 (Or.inl rfl),
   C9_auth_rejection _ (some "") stTwo 7 (Or.inr (Or.inl rfl)),
   C9_auth_rejection _ (some "tok") stTwo 7
     (Or.inr (Or.inr ⟨"tok", rfl, Or.inl rfl⟩))⟩

/-- C10: a typing frame with no `state` field is not treated as malformed:
`data.get("state", False)` defaults to `False`, so the handler broadcasts
`{"type": "typing", "user_id": uid, "state": false}` to every other live
session, sends nothing to the sender, emits no error frame, and leaves the
state unchanged. -/
theorem C10_typing_default_false (st : ServerState) (ws : Nat) (uid : Int)
    (now : String) (fields : List (String × JVal))
    (hty : optValEqStr (jget fields "type") "typing" = true)
    (habs : jget fields "state" = none)
    (hdead : st.dead = []) (hn : (st.registry.map Prod.fst).Nodup) :
    ∃ outs,
      handleFrame st ws uid now (some (.obj fields)) = .next st outs ∧
      sentTo outs ws = [] ∧
      (∀ p ∈ st.registry, p.1 ≠ ws →
        sentTo outs p.1 = [typingPayload uid false]) ∧
      outs.all (fun e => !isErrorFrame e.frame) = true := by
  obtain ⟨db, reg, dead⟩ := st
  have hd : dead = [] := hdead
  subst hd
  simp only [List.map] at hn
  rw [handleFrame_typing_eq _ ws uid now fields hty, habs]
  simp only [Option.getD, pyTruthy, broadcast_snd_dead_nil]
  refine ⟨_, rfl, broadcast_sentTo_self reg _ ws, ?_, ?_⟩
  · intro p hp hne
    exact broadcast_sentTo_other reg _ ws p.1 hn
      (List.mem_map_of_mem Prod.fst hp) hne
  · rw [List.all_eq_true]
    intro e he
    rw [broadcast_fst] at he
    rcases List.mem_map.mp he with ⟨w, _, rfl⟩
    rfl

/-- C10 witness: websocket 1 (alice) sends `{"type": "typing"}`; websockets
2 and 3 receive the state-false typing broadcast, alice receives nothing,
no error frame is emitted, and the state is unchanged. -/
theorem C10_typing_default_false_witness :
    stateAfter (handleFrame stThree 1 1 "T1"
      (some (.obj [("type", .str "typing")]))) = stThree ∧
    staysActive (handleFrame stThree 1 1 "T1"
      (some (.obj [("type", .str "typing")]))) = true ∧
    sentTo (framesOut (handleFrame stThree 1 1 "T1"
      (some (.obj [("type", .str "typing")])))) 1 = [] ∧
    sentTo (framesOut (handleFrame stThree 1 1 "T1"
      (some (.obj [("type", .str "typing")])))) 2 = [typingPayload 1 false] ∧
    sentTo (framesOut (handleFrame stThree 1 1 "T1"
      (some (.obj [("type", .str "typing")])))) 3 = [typingPayload 1 false] ∧
    (framesOut (handleFrame stThree 1 1 "T1"
      (some (.obj [("type", .str "typing")])))).all
      (fun e => !isErrorFrame e.frame) = true := by
  obtain ⟨outs, heq, hself, hoth, herr⟩ :=
    C10_typing_default_false stThree 1 1 "T1"
      [("type", JVal.str "typing")] rfl rfl rfl (by decide)
  rw [heq]
  exact ⟨rfl, rfl, hself, hoth (2, 2) (by decide) (by decide),
    hoth (3, 2) (by decide) (by decide), herr⟩

/-- C4: while a set of sessions is connected (all transports alive), a
message frame is broadcast to every other session but never echoed to the
sender, who instead receives exactly one ack frame carrying its client
correlation id and the server-assigned id; a successful edit broadcast and a
read broadcast are delivered to every session, the sender included. -/
theorem C4_exclusion_semantics :
    (∀ (st : ServerState) (ws : Nat) (uid : Int) (now : String)
        (fields : List (String × JVal)),
      optValEqStr (jget fields "type") "message" = true →
      st.dead = [] → (st.registry.map Prod.fst).Nodup →
      ∃ st' outs,
        handleFrame st ws uid now (some (.obj fields)) = .next st' outs ∧
        sentTo outs ws =
          [ackFrame (pyToStored (jget fields "id")) st.db.next_message_id] ∧
        ∃ entry, ∀ p ∈ st.registry, p.1 ≠ ws →
          sentTo outs p.1 = [messageFrame entry]) ∧
    (∀ (st : ServerState) (ws : Nat) (uid : Int) (now : String)
        (fields : List (String × JVal)) (mid : Int) (r : MessageRow),
      optValEqStr (jget fields "type") "edit" = true →
      pyInt (jget fields "message_id") = some mid →
      st.db.messages.find? (fun m => m.id == mid) = some r →
      r.user_id = uid →
      st.dead = [] → (st.registry.map Prod.fst).Nodup →
      ∃ st' outs,
        handleFrame st ws uid now (some (.obj fields)) = .next st' outs ∧
        ∀ p ∈ st.registry,
          sentTo outs p.1 =
            [editPayload mid (pyToStored (jget fields "new_text")) now]) ∧
    (∀ (st : ServerState) (ws : Nat) (uid : Int) (now : String)
        (fields : List (String × JVal)) (mid : Int),
      optValEqStr (jget fields "type") "read" = true →
      pyInt (jget fields "message_id") = some mid →
      st.dead = [] → (st.registry.map Prod.fst).Nodup →
      ∃ st' outs,
        handleFrame st ws uid now (some (.obj fields)) = .next st' outs ∧
        ∀ p ∈ st.registry, sentTo outs p.1 = [readPayload mid uid now]) := by
  refine ⟨?_, ?_, ?_⟩
  · intro st ws uid now fields hty hdead hn
    obtain ⟨db, reg, dead⟩ := st
    have hd : dead = [] := hdead
    subst hd
    rw [handleFrame_message_eq _ ws uid now fields hty]
    refine ⟨_, _, rfl, ?_, ?_⟩
    · rw [sentTo_append, broadcast_sentTo_self, sentTo_cons]
      simp [sentTo_nil]
    · exact ⟨_, fun p hp hne => by
        rw [sentTo_append,
          broadcast_sentTo_other reg _ ws p.1 hn
            (List.mem_map_of_mem Prod.fst hp) hne,
          sentTo_cons]
        have hws : ws ≠ p.1 := fun e => hne e.symm
        simp only [sentTo_nil, if_neg hws, List.nil_append, List.append_nil]
        rfl⟩
  · intro st ws uid now fields mid r hty hm hfind hr hdead hn
    obtain ⟨db, reg, dead⟩ := st
    have hd : dead = [] := hdead
    subst hd
    rw [handleFrame_edit_ok _ ws uid now fields mid r hty hm hfind hr]
    refine ⟨_, _, rfl, ?_⟩
    intro p hp
    exact broadcast_sentTo_all reg _ p.1 hn (List.mem_map_of_mem Prod.fst hp)
  · intro st ws uid now fields mid hty hm hdead hn
    obtain ⟨db, reg, dead⟩ := st
    have hd : dead = [] := hdead
    subst hd
    rw [handleFrame_read_eq _ ws uid now fields mid hty hm]
    refine ⟨_, _, rfl, ?_⟩
    intro p hp
    exact broadcast_sentTo_all reg _ p.1 hn (List.mem_map_of_mem Prod.fst hp)

/-- C4 witness: on the three-session state, alice's message frame reaches
bob's two websockets but not alice, who gets exactly the ack with her
correlation id "c1" and server id 2; bob's edit of his own message 1 and
alice's read of message 1 are broadcast to all three websockets. -/
theorem C4_exclusion_semantics_witness :
    sentTo (framesOut (handleFrame stThree 1 1 "T1"
      (some (.obj [("type", .str "message"), ("id", .str "c1"),
        ("text", .str "hello")])))) 1 = [ackFrame (.str "c1") 2] ∧
    sentTo (framesOut (handleFrame stThree 2 2 "T2"
      (some (.obj [("type", .str "edit"), ("message_id", .num 1),
        ("new_text", .str "yo")])))) 2 = [editPayload 1 (.str "yo") "T2"] ∧
    sentTo (framesOut (handleFrame stThree 1 1 "T3"
      (some (.obj [("type", .str "read"),
        ("message_id", .num 1)])))) 1 = [readPayload 1 1 "T3"] := by
  obtain ⟨sa, oa, ha, hack, ea, hoth⟩ :=
    C4_exclusion_semantics.1 stThree 1 1 "T1"
      [("type", JVal.str "message"), ("id", JVal.str "c1"),
        ("text", JVal.str "hello")] rfl rfl (by decide)
  obtain ⟨sb, ob, hb, hball⟩ :=
    C4_exclusion_semantics.2.1 stThree 2 2 "T2"
      [("type", JVal.str "edit"), ("message_id", JVal.num 1),
        ("new_text", JVal.str "yo")] 1 ⟨1, 2, .str "hi", .null, "T0", .null⟩
      rfl rfl rfl rfl rfl (by decide)
  obtain ⟨sc, oc, hc, hcall⟩ :=
    C4_exclusion_semantics.2.2 stThree 1 1 "T3"
      [("type", JVal.str "read"), ("message_id", JVal.num 1)] 1
      rfl rfl rfl (by decide)
  rw [ha, hb, hc]
  exact ⟨hack, hball (2, 2) (by decide), hcall (1, 1) (by decide)⟩

/-- C5: broadcast attempts delivery to every snapshotted member
independently — every live member receives the payload no matter which other
members' sends fail — and every member whose send failed is removed from the
registry; with K connected sessions of which exactly one has a dead
transport, the broadcast still reaches the other K−1 sessions and the dead
session is no longer registered afterwards. -/
theorem C5_fanout_resilience :
    (∀ (reg : List (Nat × Int)) (dead : List Nat) (payload : JVal),
      (reg.map Prod.fst).Nodup →
      ((∀ w ∈ reg.map Prod.fst, w ∉ dead →
          sentTo (broadcast reg dead payload none).1 w = [payload]) ∧
        (broadcast reg dead payload none).2 =
          reg.filter (fun q => !dead.contains q.1) ∧
        ∀ d ∈ dead, d ∉ ((broadcast reg dead payload none).2.map Prod.fst))) ∧
    ∀ (reg : List (Nat × Int)) (d : Nat) (payload : JVal),
      (reg.map Prod.fst).Nodup → d ∈ reg.map Prod.fst →
      ((broadcast reg [d] payload none).1.length = reg.length - 1 ∧
        sentTo (broadcast reg [d] payload none).1 d = []) := by
  constructor
  · intro reg dead payload hn
    refine ⟨?_, broadcast_snd_none reg dead payload, ?_⟩
    · intro w hw hwd
      rw [broadcast_fst]
      apply sentTo_map_mem _ _ (hn.filter _)
      rw [List.mem_filter]
      refine ⟨hw, ?_⟩
      simp [excludedBy, List.contains, List.elem_eq_mem, hwd]
    · intro d hd hmem
      rw [broadcast_snd_none] at hmem
      rcases List.mem_map.mp hmem with ⟨q, hq, rfl⟩
      rcases List.mem_filter.mp hq with ⟨-, hq2⟩
      simp [List.contains, List.elem_eq_mem, hd] at hq2
  · intro reg d payload hn hd
    have hfc : (reg.map Prod.fst).filter
        (fun w => !List.contains [d] w && !excludedBy w none) =
        (reg.map Prod.fst).filter (fun w => w ≠ d) := by
      apply List.filter_congr
      intro w _
      simp [excludedBy, List.contains, List.elem_eq_mem]
    constructor
    · rw [broadcast_fst, List.length_map, hfc,
        length_filter_ne_of_nodup _ _ hn hd, List.length_map]
    · rw [broadcast_fst]
      apply sentTo_map_not_mem
      rw [hfc]
      intro hmem
      exact absurd (List.mem_filter.mp hmem).2 (by simp)

/-- C5 witness: three sessions, websocket 2 dead: the broadcast reaches
websockets 1 and 3, skips 2, and the registry afterwards no longer contains
websocket 2. -/
theorem C5_fanout_resilience_witness :
    sentTo (broadcast [(1, 10), (2, 20), (3, 30)] [2]
      (typingPayload 9 true) none).1 1 = [typingPayload 9 true] ∧
    sentTo (broadcast [(1, 10), (2, 20), (3, 30)] [2]
      (typingPayload 9 true) none).1 3 = [typingPayload 9 true] ∧
    sentTo (broadcast [(1, 10), (2, 20), (3, 30)] [2]
      (typingPayload 9 true) none).1 2 = [] ∧
    (broadcast [(1, 10), (2, 20), (3, 30)] [2]
      (typingPayload 9 true) none).2 = [(1, 10), (3, 30)] ∧
    (broadcast [(1, 10), (2, 20), (3, 30)] [2]
      (typingPayload 9 true) none).1.length = 2 := by
  obtain ⟨hlive, hreg, hgone⟩ :=
    C5_fanout_resilience.1 [(1, 10), (2, 20), (3, 30)] [2]
      (typingPayload 9 true) (by decide)
  obtain ⟨hlen, hdead⟩ :=
    C5_fanout_resilience.2 [(1, 10), (2, 20), (3, 30)] 2
      (typingPayload 9 true) (by decide) (by decide)
  refine ⟨hlive 1 (by decide) (by decide), hlive 3 (by decide) (by decide),
    hdead, ?_, hlen⟩
  rw [hreg]
  rfl

/-- C8 counterexample: the claim says the bulk-history limit is never
negative and the response length is at most the limit; but `/history` passes
a client-supplied negative limit straight to the SQL `LIMIT`, where SQLite
treats it as unlimited: on a one-message database, `limit = -1` returns one
row, and `1 ≤ -1` is false. -/
theorem C8_counterexample :
    (history_endpoint dbOneMsg (some (-1))).length = 1 ∧
    ¬ (((history_endpoint dbOneMsg (some (-1))).length : Int) ≤ -1) :=
  ⟨rfl, by decide⟩

/-- C8 (amended): the bulk history fetch takes an optional integer limit
defaulting to 200 when absent, and the response is always ordered oldest
first (ascending message id); for a nonnegative limit the response length is
at most the limit, but a negative limit is not clamped — it reaches the SQL
`LIMIT`, which then returns the full message sequence.  (A non-integer limit
never reaches this code: FastAPI rejects it at validation.) -/
theorem C8_history_limit (db : DB) (l : Int) :
    ((history_endpoint db none).length ≤ 200) ∧
    List.Sorted (· ≤ ·) ((history_endpoint db none).map HistRow.id) ∧
    (0 ≤ l → (((history_endpoint db (some l)).length : Int) ≤ l)) ∧
    (l < 0 → (history_endpoint db (some l)).length = db.messages.length) ∧
    List.Sorted (· ≤ ·) ((history_endpoint db (some l)).map HistRow.id) := by
  refine ⟨?_, load_history_sorted db 200, ?_, ?_, load_history_sorted db l⟩
  · show (load_history db 200).length ≤ 200
    rw [load_history_length]
    simp
  · intro hl
    show ((load_history db l).length : Int) ≤ l
    rw [load_history_length, if_neg (not_lt.mpr hl)]
    calc ((min l.toNat db.messages.length : Nat) : Int)
        ≤ (l.toNat : Int) := by exact_mod_cast Nat.min_le_left _ _
      _ = l := Int.toNat_of_nonneg hl
  · intro hl
    show (load_history db l).length = db.messages.length
    rw [load_history_length, if_pos hl]

/-- C8 witness: on the one-message database, an absent limit and limit 5
stay within bounds and a negative limit returns the full table. -/
theorem C8_history_limit_witness :
    ((history_endpoint dbOneMsg none).length ≤ 200) ∧
    (((history_endpoint dbOneMsg (some 5)).length : Int) ≤ 5) ∧
    ((history_endpoint dbOneMsg (some (-1))).length =
      dbOneMsg.messages.length) :=
  ⟨(C8_history_limit dbOneMsg 5).1,
   (C8_history_limit dbOneMsg 5).2.2.1 (by decide),
   (C8_history_limit dbOneMsg (-1)).2.2.2.1 (by decide)⟩

end LineWeb
